import Mathlib

/-
Verification of the aggregation-and-reconciliation logic of the gra-system
dashboard (src/src/components/RegionalAnalysis.jsx and
src/src/components/TaxSourceBreakdown.jsx).

The JavaScript is embedded shallowly:
* JavaScript numbers are modelled as rationals (ℚ); `NaN` is a separate
  constructor.  All arithmetic appearing in the dashboard is exact decimal
  arithmetic on small values, so the rational model agrees with IEEE doubles
  on every computation the theorems below mention.
* Values flowing through the edit forms can be numbers, `NaN`, or strings
  (the RegionalAnalysis form stores the raw empty string), so form values are
  a sum type `JSVal` and comparisons/addition follow JavaScript's coercion
  rules (`ToNumber`, string concatenation, `NaN` comparisons are false).
* Firestore documents are `RegionDoc` values; the remote store is a list of
  documents.  `await`ed effects are modelled by explicit state passing, and
  a boolean `writeOk` models whether the `updateDoc` call succeeds.
-/

namespace GRA

/-- A JavaScript value as it occurs in the dashboard's edit/aggregate paths:
a (finite) number, `NaN`, or a string. -/
inductive JSVal where
  | num (q : ℚ)
  | nan
  | str (s : String)
deriving DecidableEq, Repr

/-! Kernel-computable rational arithmetic.  The library's `Rat.add`, `Rat.mul`
and `Rat.inv` are irreducible, so the embedding computes through `mkRat` /
`Rat.divInt` instead; `qAdd_eq`, `qMul_eq`, `qDiv_eq`, `qNeg_eq` below prove
these agree with the standard field operations on ℚ. -/

/-- Rational addition through `mkRat`. -/
def qAdd (a b : ℚ) : ℚ := mkRat (a.num * b.den + b.num * a.den) (a.den * b.den)

/-- Rational multiplication through `mkRat`. -/
def qMul (a b : ℚ) : ℚ := mkRat (a.num * b.num) (a.den * b.den)

/-- Rational division through `Rat.divInt` (0 on a zero divisor, as in ℚ). -/
def qDiv (a b : ℚ) : ℚ := Rat.divInt (a.num * b.den) (a.den * b.num)

/-- Rational negation through `Rat.divInt`. -/
def qNeg (a : ℚ) : ℚ := Rat.divInt (-a.num) a.den

/-- Numeric value of a digit character. -/
def digitVal (c : Char) : ℕ := c.toNat - '0'.toNat

/-- Natural number denoted by a list of decimal digits. -/
def natOfDigits (l : List Char) : ℕ := l.foldl (fun n c => 10 * n + digitVal c) 0

/-- Value of `intPart.fracPart` as a rational. -/
def decValue (intPart fracPart : List Char) : ℚ :=
  mkRat (natOfDigits intPart * 10 ^ fracPart.length + natOfDigits fracPart)
    (10 ^ fracPart.length)

/-- Parse an optional sign followed by `digits [. digits]` from the front of a
character list, returning the value and the unconsumed rest.  Returns `none`
when no digit is found.  (Exponent notation and `Infinity` are not modelled;
no theorem below depends on such inputs.) -/
def parseDecimal (cs : List Char) : Option (ℚ × List Char) :=
  let signed := fun (p : Bool × List Char) => p
  let (neg, cs₁) := signed (match cs with
    | '-' :: t => (true, t)
    | '+' :: t => (false, t)
    | _ => (false, cs))
  let intPart := cs₁.takeWhile (·.isDigit)
  let rest₁ := cs₁.dropWhile (·.isDigit)
  let fracPart := match rest₁ with
    | '.' :: t => t.takeWhile (·.isDigit)
    | _ => []
  let rest₂ := match rest₁ with
    | '.' :: t => t.dropWhile (·.isDigit)
    | _ => rest₁
  if intPart = [] ∧ fracPart = [] then none
  else
    let v : ℚ := decValue intPart fracPart
    some (if neg then qNeg v else v, rest₂)

/-- Model of JavaScript `parseFloat`: skip leading whitespace, parse the
longest numeric prefix; `none` models `NaN`. -/
def parseFloat (s : String) : Option ℚ :=
  (parseDecimal (s.data.dropWhile (·.isWhitespace))).map (·.1)

/-- Model of JavaScript `parseInt` with inferred radix 10: skip leading
whitespace, optional sign, longest digit prefix; `none` models `NaN`. -/
def parseInt10 (s : String) : Option ℤ :=
  let cs := s.data.dropWhile (·.isWhitespace)
  let signed := fun (p : Bool × List Char) => p
  let (neg, cs₁) := signed (match cs with
    | '-' :: t => (true, t)
    | '+' :: t => (false, t)
    | _ => (false, cs))
  let ds := cs₁.takeWhile (·.isDigit)
  if ds = [] then none
  else some ((if neg then -1 else 1) * (natOfDigits ds : ℤ))

/-- Model of `value.replace(/,/g, "")`: drop every comma. -/
def stripCommas (s : String) : String := ⟨s.data.filter (fun c => c ≠ ',')⟩

/-- Drop leading and trailing whitespace from a character list. -/
def trimChars (cs : List Char) : List Char :=
  ((cs.dropWhile (·.isWhitespace)).reverse.dropWhile (·.isWhitespace)).reverse

/-- JavaScript `ToNumber` on a string: trimmed empty string is `0`, otherwise
the string must be entirely a signed decimal numeral; `none` models `NaN`. -/
def strToNumber (s : String) : Option ℚ :=
  let cs := trimChars s.data
  if cs.isEmpty then some 0
  else match parseDecimal cs with
    | some (q, []) => some q
    | _ => none

/-- JavaScript `ToNumber` on a `JSVal`; `none` models `NaN`. -/
def toNumber : JSVal → Option ℚ
  | .num q => some q
  | .nan => none
  | .str s => strToNumber s

/-- The rational carried by a numeric `JSVal` (0 otherwise). -/
def qOf : JSVal → ℚ
  | .num q => q
  | _ => 0

/-- Whether a `JSVal` is a (finite) number. -/
def JSVal.isNum : JSVal → Bool
  | .num _ => true
  | _ => false

/-- JavaScript `ToString` for the values reachable in the dashboard.  Only
integers and strings ever reach a string concatenation in the modelled code
paths, and the integer rendering agrees with JavaScript. -/
def jsStr : JSVal → String
  | .num q => if q.den = 1 then toString q.num else toString q
  | .nan => "NaN"
  | .str s => s

/-- JavaScript `+`: string concatenation when either operand is a string,
otherwise numeric addition with `NaN` propagation. -/
def jsAdd : JSVal → JSVal → JSVal
  | .str a, b => .str (a ++ jsStr b)
  | a, .str b => .str (jsStr a ++ b)
  | a, b =>
    match toNumber a, toNumber b with
    | some x, some y => .num (qAdd x y)
    | _, _ => .nan

/-- JavaScript `*`: both operands converted with `ToNumber`, `NaN` propagates. -/
def jsMul (a b : JSVal) : JSVal :=
  match toNumber a, toNumber b with
  | some x, some y => .num (qMul x y)
  | _, _ => .nan

/-- JavaScript `/` restricted to the guarded uses in the dashboard: numeric
division; a non-numeric operand or a zero divisor yields a non-number.
(JavaScript would give `±Infinity` on division by zero; every division in the
source is guarded by a `> 0` test, so that case is unreachable in the
theorems below.) -/
def jsDiv (a b : JSVal) : JSVal :=
  match toNumber a, toNumber b with
  | some x, some y => if y = 0 then .nan else .num (qDiv x y)
  | _, _ => .nan

/-- JavaScript `<`: lexicographic on two strings, otherwise numeric with
`NaN` comparisons false. -/
def jsLtB : JSVal → JSVal → Bool
  | .str x, .str y => decide (x < y)
  | a, b =>
    match toNumber a, toNumber b with
    | some p, some q => decide (p < q)
    | _, _ => false

/-- JavaScript `>`. -/
def jsGtB (a b : JSVal) : Bool := jsLtB b a

/-- JavaScript `>=`: lexicographic on two strings, otherwise numeric with
`NaN` comparisons false. -/
def jsGeB : JSVal → JSVal → Bool
  | .str x, .str y => !decide (x < y)
  | a, b =>
    match toNumber a, toNumber b with
    | some p, some q => decide (q ≤ p)
    | _, _ => false

/-! ## Data model

A Firestore document in the `regions` collection is
`{ region: string, yearlyData: YearRecord[] }`
(`RegionalAnalysis.jsx`, `fetchRegions` / `saveEdits`).  The edit forms hold
the seven editable fields, so a `YearRec` field can be any `JSVal` after a
commit of edited data; documents seeded from the dataset are all-numeric. -/

/-- One year record of a region document: the `year` plus the seven data
fields of the dashboard. -/
structure YearRec where
  year : ℤ
  taxpayers : JSVal
  averageTax : JSVal
  totalTax : JSVal
  salaryTaxpayers : JSVal
  eVatTaxpayers : JSVal
  otherTaxpayers : JSVal
  complianceRate : JSVal
deriving DecidableEq, Repr

/-- A Firestore region document: `{ region, yearlyData }`. -/
structure RegionDoc where
  region : String
  yearlyData : List YearRec
deriving DecidableEq, Repr

/-- A processed per-region row as built by `fetchRegions`:
`{ region: region.region, ...yearData }`.  (The `year` property of the spread
record is never read by the aggregation or edit code, so it is not carried.) -/
structure MetricRow where
  region : String
  taxpayers : JSVal
  averageTax : JSVal
  totalTax : JSVal
  salaryTaxpayers : JSVal
  eVatTaxpayers : JSVal
  otherTaxpayers : JSVal
  complianceRate : JSVal
deriving DecidableEq, Repr

/-- The edit form of the `RegionalAnalysis` component (`enterEditMode` seeds
exactly these seven fields from the selected region). -/
structure EditRec where
  taxpayers : JSVal
  averageTax : JSVal
  totalTax : JSVal
  salaryTaxpayers : JSVal
  eVatTaxpayers : JSVal
  otherTaxpayers : JSVal
  complianceRate : JSVal
deriving DecidableEq, Repr

/-- The seven editable fields. -/
inductive Field where
  | taxpayers
  | averageTax
  | totalTax
  | salaryTaxpayers
  | eVatTaxpayers
  | otherTaxpayers
  | complianceRate
deriving DecidableEq, Repr

/-- `{ region: name, ...yearData }`: a processed row from a stored record. -/
def rowOfRecord (name : String) (r : YearRec) : MetricRow :=
  { region := name
    taxpayers := r.taxpayers
    averageTax := r.averageTax
    totalTax := r.totalTax
    salaryTaxpayers := r.salaryTaxpayers
    eVatTaxpayers := r.eVatTaxpayers
    otherTaxpayers := r.otherTaxpayers
    complianceRate := r.complianceRate }

/-- The all-zero fallback row substituted when a region has no record for the
selected year (`fetchRegions`). -/
def zeroRow (name : String) : MetricRow :=
  { region := name
    taxpayers := .num 0
    averageTax := .num 0
    totalTax := .num 0
    salaryTaxpayers := .num 0
    eVatTaxpayers := .num 0
    otherTaxpayers := .num 0
    complianceRate := .num 0 }

/-- `{ ...editForm, year: selectedYear }`: the candidate record written to the
store on commit.  (In the Dashboard variant the spread also carries the `region`
property into the stored object; only the canonical eight fields are modelled.) -/
def editToRecord (e : EditRec) (y : ℤ) : YearRec :=
  { year := y
    taxpayers := e.taxpayers
    averageTax := e.averageTax
    totalTax := e.totalTax
    salaryTaxpayers := e.salaryTaxpayers
    eVatTaxpayers := e.eVatTaxpayers
    otherTaxpayers := e.otherTaxpayers
    complianceRate := e.complianceRate }

/-- `{ ...editForm, region: name }`: the updated in-memory snapshot row. -/
def editToRow (e : EditRec) (name : String) : MetricRow :=
  { region := name
    taxpayers := e.taxpayers
    averageTax := e.averageTax
    totalTax := e.totalTax
    salaryTaxpayers := e.salaryTaxpayers
    eVatTaxpayers := e.eVatTaxpayers
    otherTaxpayers := e.otherTaxpayers
    complianceRate := e.complianceRate }

/-- The seven data fields of a row, as an edit record (drops the region name;
models reading the editable fields of `editedRegionData`). -/
def rowToEdit (r : MetricRow) : EditRec :=
  { taxpayers := r.taxpayers
    averageTax := r.averageTax
    totalTax := r.totalTax
    salaryTaxpayers := r.salaryTaxpayers
    eVatTaxpayers := r.eVatTaxpayers
    otherTaxpayers := r.otherTaxpayers
    complianceRate := r.complianceRate }

/-- `{ ...row, [field]: v }`: single-field update of a row
(`Dashboard.handleEditChange`). -/
def updateField (r : MetricRow) (fld : Field) (v : JSVal) : MetricRow :=
  match fld with
  | .taxpayers => { r with taxpayers := v }
  | .averageTax => { r with averageTax := v }
  | .totalTax => { r with totalTax := v }
  | .salaryTaxpayers => { r with salaryTaxpayers := v }
  | .eVatTaxpayers => { r with eVatTaxpayers := v }
  | .otherTaxpayers => { r with otherTaxpayers := v }
  | .complianceRate => { r with complianceRate := v }

/-- `{ ...editForm, [field]: v }`: single-field update of the edit form
(`RegionalAnalysis.handleEditChange`). -/
def updateFieldE (e : EditRec) (fld : Field) (v : JSVal) : EditRec :=
  match fld with
  | .taxpayers => { e with taxpayers := v }
  | .averageTax => { e with averageTax := v }
  | .totalTax => { e with totalTax := v }
  | .salaryTaxpayers => { e with salaryTaxpayers := v }
  | .eVatTaxpayers => { e with eVatTaxpayers := v }
  | .otherTaxpayers => { e with otherTaxpayers := v }
  | .complianceRate => { e with complianceRate := v }

/-- All seven data fields of a row are (finite) numbers. -/
def MetricRow.numericRow (r : MetricRow) : Bool :=
  r.taxpayers.isNum && r.averageTax.isNum && r.totalTax.isNum &&
    r.salaryTaxpayers.isNum && r.eVatTaxpayers.isNum &&
    r.otherTaxpayers.isNum && r.complianceRate.isNum

/-! ## Source-breakdown aggregate (`TaxSourceBreakdown.jsx`)

The component reads the static fallback dataset `data.json`, whose regions
have a fixed single-year shape (one flat record per region, no `yearlyData`
array), with numeric source counters.  The `useEffect` sums each counter with
`regions.reduce((sum, r) => sum + r.salaryTaxpayers, 0)` and likewise for the
other two sources — each region contributes its single record, and no year
parameter is consulted. -/

/-- A region entry of the static single-year dataset. -/
structure SrcRegion where
  region : String
  year : ℤ
  salaryTaxpayers : ℚ
  eVatTaxpayers : ℚ
  otherTaxpayers : ℚ
deriving DecidableEq, Repr

/-- The three source totals of the breakdown view. -/
structure SourceTotals where
  salary : ℚ
  eVat : ℚ
  other : ℚ
deriving DecidableEq, Repr

/-- The totals computed by the `TaxSourceBreakdown` effect. -/
def aggregateBySource (regions : List SrcRegion) : SourceTotals :=
  { salary := regions.foldl (fun sum r => sum + r.salaryTaxpayers) 0
    eVat := regions.foldl (fun sum r => sum + r.eVatTaxpayers) 0
    other := regions.foldl (fun sum r => sum + r.otherTaxpayers) 0 }

/-! ## National aggregate (`Dashboard.fetchRegions`) -/

/-- Lookup of a pending edit by `(region name, year)` key.  The source keys
`editedData` by the template string `region + "_" + year`; the pair is used
here directly. -/
def lookupEdit (ed : List ((String × ℤ) × MetricRow)) (k : String × ℤ) :
    Option MetricRow :=
  (ed.find? (fun p => p.1 = k)).map (·.2)

/-- `{ ...prev, [key]: row }`: store a pending edit under its key. -/
def setEdit (ed : List ((String × ℤ) × MetricRow)) (k : String × ℤ)
    (row : MetricRow) : List ((String × ℤ) × MetricRow) :=
  (k, row) :: ed.filter (fun p => !decide (p.1 = k))

/-- The per-region rows built by `Dashboard.fetchRegions`: the record of the
selected year (or the all-zero fallback) with any pending edit spread over it.
`startEditing` always seeds the whole row into `editedData` before a field is
changed, so pending edits are total rows and the spread replaces the row. -/
def processRegions (docs : List RegionDoc) (year : ℤ)
    (edits : List ((String × ℤ) × MetricRow)) : List MetricRow :=
  docs.map fun d =>
    let base := match d.yearlyData.find? (fun rec => rec.year == year) with
      | some r => rowOfRecord d.region r
      | none => zeroRow d.region
    match lookupEdit edits (d.region, year) with
    | some e => e
    | none => base

/-- The derived national aggregate of the Dashboard. -/
structure Metrics where
  totalTaxpayers : JSVal
  totalTax : JSVal
  avgTax : JSVal
  avgCompliance : JSVal
deriving DecidableEq, Repr

/-- The totals and weighted averages computed by `Dashboard.fetchRegions`
(and recomputed identically in the success path of `Dashboard.saveEdits`). -/
def computeMetrics (rows : List MetricRow) : Metrics :=
  let totalTaxpayers := rows.foldl (fun sum r => jsAdd sum r.taxpayers) (.num 0)
  let totalTax := rows.foldl (fun sum r => jsAdd sum r.totalTax) (.num 0)
  let avgTax :=
    if jsGtB totalTaxpayers (.num 0) then jsDiv totalTax totalTaxpayers
    else .num 0
  let avgCompliance :=
    if jsGtB totalTaxpayers (.num 0) then
      jsDiv (rows.foldl (fun sum r => jsAdd sum (jsMul r.complianceRate r.taxpayers)) (.num 0))
        totalTaxpayers
    else .num 0
  { totalTaxpayers, totalTax, avgTax, avgCompliance }

/-! ## Staging (`handleEditChange` of both variants) -/

/-- `RegionalAnalysis.handleEditChange`: the stored value is
`value === "" ? "" : parseFloat(value) || 0` (every field, including the
compliance rate, is parsed the same way in this variant). -/
def stageRA (value : String) : JSVal :=
  if value = "" then .str ""
  else .num ((parseFloat value).getD 0)

/-- `Dashboard.handleEditChange`: `complianceRate` is
`parseFloat(value) / 100` (no default, so an unparseable input stays `NaN`);
every other field is `parseInt(value.replace(/,/g, "")) || 0`. -/
def stageDash (fld : Field) (value : String) : JSVal :=
  if fld = .complianceRate then
    match parseFloat value with
    | some q => .num (qDiv q 100)
    | none => .nan
  else .num (((parseInt10 (stripCommas value)).getD 0 : ℤ) : ℚ)

/-! ## Validation (`validateForm` / `validateEdit`) -/

def msgTaxNeg : String := "Taxpayers cannot be negative."
def msgAvgNeg : String := "Average Tax cannot be negative."
def msgTotNeg : String := "Total Tax cannot be negative."
def msgSalNeg : String := "Salary Taxpayers cannot be negative."
def msgEvatNeg : String := "E-VAT Taxpayers cannot be negative."
def msgOtherNeg : String := "Other Taxpayers cannot be negative."
def msgCompliance : String := "Compliance Rate must be between 0 and 1."
def msgComplianceDash : String := "Compliance Rate must be between 0 and 100%."
def msgSum : String :=
  "Sum of Salary, E-VAT, and Other Taxpayers cannot exceed Total Taxpayers."

/-- `RegionalAnalysis.validateForm`: every constraint is checked
unconditionally and its message pushed on violation. -/
def validateForm (f : EditRec) : List String :=
  (if jsLtB f.taxpayers (.num 0) then [msgTaxNeg] else []) ++
  (if jsLtB f.averageTax (.num 0) then [msgAvgNeg] else []) ++
  (if jsLtB f.totalTax (.num 0) then [msgTotNeg] else []) ++
  (if jsLtB f.salaryTaxpayers (.num 0) then [msgSalNeg] else []) ++
  (if jsLtB f.eVatTaxpayers (.num 0) then [msgEvatNeg] else []) ++
  (if jsLtB f.otherTaxpayers (.num 0) then [msgOtherNeg] else []) ++
  (if jsLtB f.complianceRate (.num 0) || jsGtB f.complianceRate (.num 1) then
    [msgCompliance] else []) ++
  (if jsGtB (jsAdd (jsAdd f.salaryTaxpayers f.eVatTaxpayers) f.otherTaxpayers)
      f.taxpayers then [msgSum] else [])

/-- `Dashboard.validateEdit`: same checks on an edited row (only the
compliance message text differs). -/
def validateEdit (r : MetricRow) : List String :=
  (if jsLtB r.taxpayers (.num 0) then [msgTaxNeg] else []) ++
  (if jsLtB r.averageTax (.num 0) then [msgAvgNeg] else []) ++
  (if jsLtB r.totalTax (.num 0) then [msgTotNeg] else []) ++
  (if jsLtB r.salaryTaxpayers (.num 0) then [msgSalNeg] else []) ++
  (if jsLtB r.eVatTaxpayers (.num 0) then [msgEvatNeg] else []) ++
  (if jsLtB r.otherTaxpayers (.num 0) then [msgOtherNeg] else []) ++
  (if jsLtB r.complianceRate (.num 0) || jsGtB r.complianceRate (.num 1) then
    [msgComplianceDash] else []) ++
  (if jsGtB (jsAdd (jsAdd r.salaryTaxpayers r.eVatTaxpayers) r.otherTaxpayers)
      r.taxpayers then [msgSum] else [])

/-! ## Commit merge (`saveEdits`, both variants)

```
const updatedYearlyData = regionData.yearlyData.map((data) =>
  data.year === selectedYear ? { ...editForm, year: selectedYear } : data);
if (!regionData.yearlyData.some((data) => data.year === selectedYear)) {
  updatedYearlyData.push({ ...editForm, year: selectedYear });
}
```
-/

/-- The year-series written back on commit: map-replace every record of the
target year by the candidate, then append the candidate when no record of
that year existed. -/
def mergeYearlyData (yearlyData : List YearRec) (e : EditRec) (y : ℤ) :
    List YearRec :=
  let updated := yearlyData.map fun d =>
    if d.year == y then editToRecord e y else d
  if yearlyData.any (fun d => d.year == y) then updated
  else updated ++ [editToRecord e y]

/-- Modelled from the spec: "Replace the YearRecord whose year equals the
target year; if none exists for that year, append a new one" — replace the
first (unique) record of the target year, else append at the end. -/
def replaceOrAppend (l : List YearRec) (c : YearRec) (y : ℤ) : List YearRec :=
  match l with
  | [] => [c]
  | d :: rest => if d.year == y then c :: rest else d :: replaceOrAppend rest c y

/-! ## Commit orchestration (`saveEdits`, both variants)

The `await`ed Firestore effects are modelled by passing the remote store (a
list of region documents) explicitly; `writeOk` tells whether the
`updateDoc` call succeeds (a throwing call takes the `catch` branch). -/

/-- Outcome of a `saveEdits` call. -/
inductive Outcome where
  | success
  | validationFailure (msg : String)
  | persistFailure (msg : String)
  | noop
deriving DecidableEq, Repr

/-- The banner message of the `catch` branch of both `saveEdits` variants. -/
def persistMsg : String := "Failed to save changes to Firestore. Please try again."

/-- Session state of the `RegionalAnalysis` component (the parts read or
written by `saveEdits`). -/
structure RAState where
  regions : List MetricRow
  selectedRegion : Option MetricRow
  editMode : Bool
  editForm : Option EditRec
  saveError : Option String
  selectedYear : ℤ
deriving DecidableEq, Repr

/-- Replace a region document's year series in the remote store
(`updateDoc(regionRef, { yearlyData })`, keyed by region name). -/
def writeDoc (remote : List RegionDoc) (name : String) (yd : List YearRec) :
    List RegionDoc :=
  remote.map fun d => if d.region == name then { d with yearlyData := yd } else d

/-- `RegionalAnalysis.saveEdits`: validate, fetch the region document,
replace-or-append the candidate year record, write back, and update the local
state; on a failed write (or a missing document, whose `.data()` access
throws) the `catch` branch sets the banner message and leaves everything else
untouched. -/
def raSaveEdits (st : RAState) (remote : List RegionDoc) (writeOk : Bool) :
    RAState × List RegionDoc × Outcome :=
  match st.editForm, st.selectedRegion with
  | some ef, some sel =>
    let errors := validateForm ef
    if errors = [] then
      match remote.find? (fun d => d.region == sel.region) with
      | some docData =>
        if writeOk then
          let newYearly := mergeYearlyData docData.yearlyData ef st.selectedYear
          let remoteNew := writeDoc remote sel.region newYearly
          let regionsNew := st.regions.map fun r =>
            if r.region == sel.region then editToRow ef r.region else r
          ({ st with
              regions := regionsNew
              selectedRegion := some (editToRow ef sel.region)
              editMode := false
              editForm := none
              saveError := none },
            remoteNew, .success)
        else ({ st with saveError := some persistMsg }, remote, .persistFailure persistMsg)
      | none => ({ st with saveError := some persistMsg }, remote, .persistFailure persistMsg)
    else
      let joined := String.intercalate " " errors
      ({ st with saveError := some joined }, remote, .validationFailure joined)
  | _, _ => (st, remote, .noop)

/-- Session state of the `Dashboard` component (the parts read or written by
`saveEdits`). -/
structure DashState where
  regionalMetrics : List MetricRow
  metricsView : Metrics
  editedData : List ((String × ℤ) × MetricRow)
  isEditing : Option (String × Field)
  saveError : Option String
  selectedYear : ℤ
deriving DecidableEq, Repr

/-- `Dashboard.saveEdits`: guard on an active edit and a pending entry,
validate, fetch, replace-or-append, write back; on success the snapshot row
is replaced, the aggregate recomputed, and `isEditing` cleared — the
`editedData` entry is left in place.  A failed write takes the `catch`
branch. -/
def dashSaveEdits (st : DashState) (remote : List RegionDoc) (writeOk : Bool) :
    DashState × List RegionDoc × Outcome :=
  match st.isEditing with
  | none => (st, remote, .noop)
  | some (name, _) =>
    match lookupEdit st.editedData (name, st.selectedYear) with
    | none => ({ st with isEditing := none }, remote, .noop)
    | some ed =>
      let errors := validateEdit ed
      if errors = [] then
        match remote.find? (fun d => d.region == name) with
        | some docData =>
          if writeOk then
            let newYearly :=
              mergeYearlyData docData.yearlyData (rowToEdit ed) st.selectedYear
            let remoteNew := writeDoc remote name newYearly
            let rowsNew := st.regionalMetrics.map fun r =>
              if r.region == name then { ed with region := r.region } else r
            ({ st with
                regionalMetrics := rowsNew
                metricsView := computeMetrics rowsNew
                isEditing := none
                saveError := none },
              remoteNew, .success)
          else ({ st with saveError := some persistMsg }, remote, .persistFailure persistMsg)
        | none => ({ st with saveError := some persistMsg }, remote, .persistFailure persistMsg)
      else
        let joined := String.intercalate " " errors
        ({ st with saveError := some joined }, remote, .validationFailure joined)

/-! ## View filter (`filteredRegions`, both `RegionalAnalysis` variants) -/

/-- The compliance tab: `"all"` (any other tab string behaves the same),
`"high"`, `"medium"`, or `"low"`. -/
inductive Tab where
  | all
  | high
  | medium
  | low
deriving DecidableEq, Repr

/-- The tab predicate of `filteredRegions`; the thresholds are the source's
literals 0.8 and 0.5 (written as computable rationals). -/
def tabPred (tab : Tab) (r : MetricRow) : Bool :=
  match tab with
  | .high => jsGeB r.complianceRate (.num (mkRat 8 10))
  | .medium =>
    jsGeB r.complianceRate (.num (mkRat 5 10)) &&
      jsLtB r.complianceRate (.num (mkRat 8 10))
  | .low => jsLtB r.complianceRate (.num (mkRat 5 10))
  | .all => true

/-- JavaScript `s.toLowerCase()`, character by character. -/
def lowerStr (s : String) : String := ⟨s.data.map Char.toLower⟩

/-- Substring test on character lists (semantics of JavaScript
`String.prototype.includes`). -/
def containsSeq (pat : List Char) : List Char → Bool
  | [] => pat.isEmpty
  | c :: t => pat.isPrefixOf (c :: t) || containsSeq pat t

/-- JavaScript `s.includes(pat)`. -/
def strIncludes (s pat : String) : Bool := containsSeq pat.data s.data

/-- `filteredRegions`: filter by compliance tab, then by case-insensitive
substring match on the region name
(`region.region.toLowerCase().includes(searchQuery.toLowerCase())`). -/
def filterRegions (regions : List MetricRow) (tab : Tab) (query : String) :
    List MetricRow :=
  (regions.filter (tabPred tab)).filter fun r =>
    strIncludes (lowerStr r.region) (lowerStr query)

/-! ## Spec-side aggregate -/

/-- The `AggregateView` of spec §3, as exact rational formulas:
sums, ratio guarded at denominator zero, and the taxpayer-weighted mean. -/
structure SpecAggregate where
  totalTaxpayers : ℚ
  totalTax : ℚ
  averageTax : ℚ
  complianceRate : ℚ
deriving DecidableEq, Repr

/-- Modelled from the spec: `totalTaxpayers = Σ taxpayers`,
`totalTax = Σ totalTax`, `averageTax = totalTax / totalTaxpayers` (0 when the
denominator is 0), and the taxpayer-weighted compliance mean. -/
def specAggregate (rows : List MetricRow) : SpecAggregate :=
  let S := (rows.map fun r => qOf r.taxpayers).sum
  let T := (rows.map fun r => qOf r.totalTax).sum
  let W := (rows.map fun r => qOf r.complianceRate * qOf r.taxpayers).sum
  { totalTaxpayers := S
    totalTax := T
    averageTax := if S = 0 then 0 else T / S
    complianceRate := if S = 0 then 0 else W / S }

/-- An all-numeric edit record (restriction of the edit form to number
values). -/
def numEdit (t a tt s ev o c : ℚ) : EditRec :=
  ⟨.num t, .num a, .num tt, .num s, .num ev, .num o, .num c⟩

/-- An all-numeric edited row (restriction of an edited Dashboard row to
number values). -/
def numRowD (t a tt s ev o c : ℚ) : MetricRow :=
  ⟨"R", .num t, .num a, .num tt, .num s, .num ev, .num o, .num c⟩

/-- A stored year record used as the base of the C10 scenario. -/
def yrBase : YearRec :=
  ⟨2025, .num 10, .num 1, .num 10, .num 0, .num 0, .num 0, .num (mkRat 1 2)⟩

/-- The RegionalAnalysis edit form after seeding from the region row and
clearing the taxpayers field (raw input ""). -/
def edCleared : EditRec :=
  updateFieldE (rowToEdit (rowOfRecord "A" yrBase)) .taxpayers (stageRA "")

/-- The Dashboard edited row after seeding from the region row and staging the
unparseable compliance input "abc". -/
def rowNaNCompliance : MetricRow :=
  updateField (rowOfRecord "A" yrBase) .complianceRate
    (stageDash .complianceRate "abc")

/-! ## Helper lemmas -/

theorem qAdd_eq (a b : ℚ) : qAdd a b = a + b := by
  unfold qAdd
  rw [Rat.mkRat_eq_div]
  have ha : (a.den : ℚ) ≠ 0 := by exact_mod_cast a.den_nz
  have hb : (b.den : ℚ) ≠ 0 := by exact_mod_cast b.den_nz
  push_cast
  conv_rhs => rw [← Rat.num_div_den a, ← Rat.num_div_den b, div_add_div _ _ ha hb]
  ring_nf

theorem qMul_eq (a b : ℚ) : qMul a b = a * b := by
  unfold qMul
  rw [Rat.mkRat_eq_div]
  push_cast
  conv_rhs => rw [← Rat.num_div_den a, ← Rat.num_div_den b]
  rw [div_mul_div_comm]

theorem qNeg_eq (a : ℚ) : qNeg a = -a := by
  unfold qNeg
  rw [Rat.divInt_eq_div]
  push_cast
  rw [neg_div, Rat.num_div_den]

theorem qDiv_eq (a b : ℚ) : qDiv a b = a / b := by
  unfold qDiv
  rw [Rat.divInt_eq_div]
  rcases eq_or_ne b 0 with hb | hb
  · subst hb; simp
  · have ha : (a.den : ℚ) ≠ 0 := by exact_mod_cast a.den_nz
    have hbd : (b.den : ℚ) ≠ 0 := by exact_mod_cast b.den_nz
    have hbn : (b.num : ℚ) ≠ 0 := by
      exact_mod_cast Rat.num_ne_zero.mpr hb
    push_cast
    conv_rhs => rw [← Rat.num_div_den a, ← Rat.num_div_den b]
    field_simp

theorem foldl_add_eq_sum {α : Type} (g : α → ℚ) :
    ∀ (l : List α) (a : ℚ), l.foldl (fun s r => s + g r) a = a + (l.map g).sum := by
  intro l
  induction l with
  | nil => intro a; simp
  | cons x t ih => intro a; simp [ih, add_assoc]

theorem jsAdd_num (a b : ℚ) : jsAdd (.num a) (.num b) = .num (a + b) := by
  rw [show jsAdd (.num a) (.num b) = .num (qAdd a b) from rfl, qAdd_eq]

theorem jsMul_num (a b : ℚ) : jsMul (.num a) (.num b) = .num (a * b) := by
  rw [show jsMul (.num a) (.num b) = .num (qMul a b) from rfl, qMul_eq]

theorem jsLtB_num (a b : ℚ) : jsLtB (.num a) (.num b) = decide (a < b) := rfl

theorem jsGtB_num (a b : ℚ) : jsGtB (.num a) (.num b) = decide (b < a) := rfl

theorem jsGeB_num (a b : ℚ) : jsGeB (.num a) (.num b) = decide (b ≤ a) := rfl

theorem jsDiv_num (a b : ℚ) :
    jsDiv (.num a) (.num b) = if b = 0 then .nan else .num (a / b) := by
  rw [show jsDiv (.num a) (.num b) = if b = 0 then .nan else .num (qDiv a b) from rfl,
    qDiv_eq]

theorem isNum_eq (v : JSVal) (h : v.isNum = true) : v = .num (qOf v) := by
  cases v with
  | num q => rfl
  | nan => simp [JSVal.isNum] at h
  | str s => simp [JSVal.isNum] at h

theorem foldl_jsAdd {α : Type} (f : α → JSVal) (g : α → ℚ) :
    ∀ (l : List α) (a : ℚ), (∀ r ∈ l, f r = .num (g r)) →
      l.foldl (fun s r => jsAdd s (f r)) (.num a) = .num (a + (l.map g).sum) := by
  intro l
  induction l with
  | nil => intro a _; simp
  | cons x t ih =>
    intro a h
    have hx : f x = .num (g x) := h x (by simp)
    simp only [List.foldl_cons, hx, jsAdd_num, List.map_cons, List.sum_cons]
    rw [ih (a + g x) (fun r hr => h r (by simp [hr]))]
    ring_nf

theorem mem_guard {c : Prop} [Decidable c] (x a : String) (l : List String) :
    a ∈ (if c then [x] else []) ++ l ↔ (c ∧ a = x) ∨ a ∈ l := by
  split <;> simp_all

theorem mem_guard_nil {c : Prop} [Decidable c] (x a : String) :
    a ∈ (if c then [x] else ([] : List String)) ↔ (c ∧ a = x) := by
  split <;> simp_all

theorem containsSeq_nil (l : List Char) : containsSeq [] l = true := by
  cases l <;> simp [containsSeq]

theorem containsSeq_iff (pat : List Char) :
    ∀ l : List Char, containsSeq pat l = true ↔ pat <:+: l := by
  intro l
  induction l with
  | nil => simp [containsSeq, List.isEmpty_iff]
  | cons c t ih =>
    simp [containsSeq, List.isPrefixOf_iff_prefix, List.infix_cons_iff, ih]

theorem merge_cons_ne (d : YearRec) (t : List YearRec) (e : EditRec) (y : ℤ)
    (hy : d.year ≠ y) :
    mergeYearlyData (d :: t) e y = d :: mergeYearlyData t e y := by
  simp only [mergeYearlyData, List.map_cons, List.any_cons, beq_iff_eq, hy,
    if_false, decide_eq_true_eq]
  by_cases hat : t.any (fun x => x.year == y) = true
  · simp [hat, hy]
  · simp [hat, hy]

theorem merge_eq_replaceOrAppend (e : EditRec) (y : ℤ) :
    ∀ l : List YearRec, l.Pairwise (fun a b => a.year ≠ b.year) →
      mergeYearlyData l e y = replaceOrAppend l (editToRecord e y) y := by
  intro l
  induction l with
  | nil => intro _; rfl
  | cons d t ih =>
    intro h
    rcases List.pairwise_cons.mp h with ⟨hd, ht⟩
    by_cases hy : d.year = y
    · have hmap : t.map (fun x => if x.year = y then editToRecord e y else x) = t := by
        conv_rhs => rw [← List.map_id t]
        apply List.map_congr_left
        intro x hx
        have hxy : x.year ≠ y := by
          intro hxy
          exact hd x hx (by rw [hy, hxy])
        simp [hxy]
      simp [mergeYearlyData, replaceOrAppend, hy, hmap]
    · rw [merge_cons_ne d t e y hy, ih ht]
      simp [replaceOrAppend, hy]

theorem find?_merge (e : EditRec) (y : ℤ) :
    ∀ l : List YearRec,
      (mergeYearlyData l e y).find? (fun d => d.year == y) =
        some (editToRecord e y) := by
  intro l
  induction l with
  | nil =>
    have h0 : mergeYearlyData [] e y = [editToRecord e y] := by
      simp [mergeYearlyData]
    rw [h0, List.find?_cons_of_pos _ (by simp [editToRecord])]
  | cons d t ih =>
    by_cases hy : d.year = y
    · have h1 : mergeYearlyData (d :: t) e y =
          editToRecord e y ::
            t.map (fun x => if x.year == y then editToRecord e y else x) := by
        simp [mergeYearlyData, hy]
      rw [h1, List.find?_cons_of_pos _ (by simp [editToRecord])]
    · rw [merge_cons_ne d t e y hy]
      rw [List.find?_cons_of_neg _ (by simpa using hy)]
      exact ih

theorem filter_map_merge (e : EditRec) (y : ℤ) :
    ∀ t : List YearRec,
      (t.map (fun d => if d.year == y then editToRecord e y else d)).filter
          (fun d => d.year != y) =
        t.filter (fun d => d.year != y) := by
  intro t
  induction t with
  | nil => rfl
  | cons d t ih =>
    simp only [List.map_cons]
    by_cases hy : d.year = y
    · rw [if_pos (show (d.year == y) = true by simpa using hy)]
      rw [List.filter_cons_of_neg (by simp [editToRecord]),
        List.filter_cons_of_neg (by simp [hy])]
      exact ih
    · rw [if_neg (show ¬(d.year == y) = true by simpa using hy)]
      rw [List.filter_cons_of_pos (by simpa using hy),
        List.filter_cons_of_pos (by simpa using hy), ih]

theorem filter_merge (e : EditRec) (y : ℤ) (l : List YearRec) :
    (mergeYearlyData l e y).filter (fun d => d.year != y) =
      l.filter (fun d => d.year != y) := by
  by_cases hany : l.any (fun d => d.year == y) = true
  · have h1 : mergeYearlyData l e y =
        l.map (fun d => if d.year == y then editToRecord e y else d) := by
      simp [mergeYearlyData, hany]
    rw [h1, filter_map_merge]
  · have h1 : mergeYearlyData l e y =
        l.map (fun d => if d.year == y then editToRecord e y else d) ++
          [editToRecord e y] := by
      simp [mergeYearlyData, hany]
    rw [h1, List.filter_append, filter_map_merge]
    simp [editToRecord]

theorem find?_writeDoc (name : String) (yd : List YearRec) (doc : RegionDoc) :
    ∀ remote : List RegionDoc,
      remote.find? (fun d => d.region == name) = some doc →
      (writeDoc remote name yd).find? (fun d => d.region == name) =
        some { doc with yearlyData := yd } := by
  intro remote
  induction remote with
  | nil => intro h; simp at h
  | cons d t ih =>
    intro h
    by_cases hd : d.region = name
    · rw [List.find?_cons_of_pos _ (by simpa using hd)] at h
      injection h with h
      subst h
      have h1 : writeDoc (d :: t) name yd =
          { d with yearlyData := yd } :: writeDoc t name yd := by
        simp [writeDoc, hd]
      rw [h1, List.find?_cons_of_pos _ (by simpa using hd)]
    · rw [List.find?_cons_of_neg _ (by simpa using hd)] at h
      have h1 : writeDoc (d :: t) name yd = d :: writeDoc t name yd := by
        simp [writeDoc, hd]
      rw [h1, List.find?_cons_of_neg _ (by simpa using hd)]
      exact ih h

/-! ## Claims -/

/-- Claim C2: for every list of regions, the source-breakdown aggregate
returns `{salary, eVat, other}` where each component is the sum of that source
counter across all records of all regions (each region of the static
single-year dataset holds exactly one record), with no filtering by year: the
totals are invariant under arbitrary reassignment of every record's year. -/
theorem source_breakdown_sums_all_records :
    (∀ regions : List SrcRegion,
      (aggregateBySource regions).salary =
          (regions.map (fun r => r.salaryTaxpayers)).sum ∧
      (aggregateBySource regions).eVat =
          (regions.map (fun r => r.eVatTaxpayers)).sum ∧
      (aggregateBySource regions).other =
          (regions.map (fun r => r.otherTaxpayers)).sum) ∧
    (∀ (regions : List SrcRegion) (f : SrcRegion → ℤ),
      aggregateBySource (regions.map fun r => { r with year := f r }) =
        aggregateBySource regions) := by
  constructor
  · intro regions
    refine ⟨?_, ?_, ?_⟩ <;>
      simp [aggregateBySource, foldl_add_eq_sum]
  · intro regions f
    unfold aggregateBySource
    simp only [List.map_map, foldl_add_eq_sum, SourceTotals.mk.injEq, zero_add]
    refine ⟨?_, ?_, ?_⟩ <;>
      exact congrArg List.sum (List.map_congr_left fun r hr => rfl)

/-- Claim C3: on a year series with at most one record per year, the commit
merge equals replace-the-record-of-the-target-year-or-append (all other
years' records unchanged), and re-fetching the region document after a
successful commit finds a year record field-for-field equal to the committed
candidate. -/
theorem commit_merge_replaces_or_appends :
    (∀ (l : List YearRec) (e : EditRec) (y : ℤ),
      l.Pairwise (fun a b => a.year ≠ b.year) →
      mergeYearlyData l e y = replaceOrAppend l (editToRecord e y) y ∧
      (mergeYearlyData l e y).find? (fun d => d.year == y) =
          some (editToRecord e y) ∧
      (mergeYearlyData l e y).filter (fun d => d.year != y) =
          l.filter (fun d => d.year != y)) ∧
    (∀ (st : RAState) (remote : List RegionDoc) (e : EditRec) (sel : MetricRow)
        (doc : RegionDoc),
      st.editForm = some e → st.selectedRegion = some sel →
      validateForm e = [] →
      remote.find? (fun d => d.region == sel.region) = some doc →
      (raSaveEdits st remote true).2.2 = .success ∧
      ((raSaveEdits st remote true).2.1.find?
            (fun d => d.region == sel.region)).map
          (fun d => d.yearlyData.find? (fun rec => rec.year == st.selectedYear)) =
        some (some (editToRecord e st.selectedYear))) := by
  constructor
  · intro l e y h
    exact ⟨merge_eq_replaceOrAppend e y l h, find?_merge e y l, filter_merge e y l⟩
  · intro st remote e sel doc h1 h2 h3 h4
    have hres : raSaveEdits st remote true =
        ({ st with
            regions := st.regions.map fun r =>
              if r.region == sel.region then editToRow e r.region else r
            selectedRegion := some (editToRow e sel.region)
            editMode := false
            editForm := none
            saveError := none },
          writeDoc remote sel.region (mergeYearlyData doc.yearlyData e st.selectedYear),
          .success) := by
      simp [raSaveEdits, h1, h2, h3, h4]
    rw [hres]
    refine ⟨rfl, ?_⟩
    have hw := find?_writeDoc sel.region
      (mergeYearlyData doc.yearlyData e st.selectedYear) doc remote h4
    rw [hw]
    show some ((mergeYearlyData doc.yearlyData e st.selectedYear).find?
        (fun rec => rec.year == st.selectedYear)) =
      some (some (editToRecord e st.selectedYear))
    rw [find?_merge]

/-- Claim C1: the national aggregate selects per region the year record of the
selected year (all-zero fallback when absent), and its totals are
`Σ taxpayers`, `Σ totalTax`, the guarded ratio `totalTax / totalTaxpayers`,
and the taxpayer-weighted compliance mean, as stated by `specAggregate`. -/
theorem national_aggregate_weighted (docs : List RegionDoc) (year : ℤ)
    (hnum : ∀ r ∈ processRegions docs year [], r.numericRow = true)
    (hpos : ∀ r ∈ processRegions docs year [], 0 ≤ qOf r.taxpayers) :
    processRegions docs year [] = (docs.map fun d =>
      match d.yearlyData.find? (fun rec => rec.year == year) with
      | some r => rowOfRecord d.region r
      | none => zeroRow d.region) ∧
    (computeMetrics (processRegions docs year [])).totalTaxpayers =
      .num (specAggregate (processRegions docs year [])).totalTaxpayers ∧
    (computeMetrics (processRegions docs year [])).totalTax =
      .num (specAggregate (processRegions docs year [])).totalTax ∧
    (computeMetrics (processRegions docs year [])).avgTax =
      .num (specAggregate (processRegions docs year [])).averageTax ∧
    (computeMetrics (processRegions docs year [])).avgCompliance =
      .num (specAggregate (processRegions docs year [])).complianceRate := by
  refine ⟨by simp [processRegions, lookupEdit], ?_⟩
  have htax : ∀ r ∈ processRegions docs year [], r.taxpayers = .num (qOf r.taxpayers) := by
    intro r hr
    have h := hnum r hr
    simp only [MetricRow.numericRow, Bool.and_eq_true] at h
    exact isNum_eq _ h.1.1.1.1.1.1
  have htot : ∀ r ∈ processRegions docs year [], r.totalTax = .num (qOf r.totalTax) := by
    intro r hr
    have h := hnum r hr
    simp only [MetricRow.numericRow, Bool.and_eq_true] at h
    exact isNum_eq _ h.1.1.1.1.2
  have hcr : ∀ r ∈ processRegions docs year [],
      r.complianceRate = .num (qOf r.complianceRate) := by
    intro r hr
    have h := hnum r hr
    simp only [MetricRow.numericRow, Bool.and_eq_true] at h
    exact isNum_eq _ h.2
  have h1 := foldl_jsAdd (fun r => r.taxpayers) (fun r => qOf r.taxpayers)
    (processRegions docs year []) 0 htax
  have h2 := foldl_jsAdd (fun r => r.totalTax) (fun r => qOf r.totalTax)
    (processRegions docs year []) 0 htot
  have h3 := foldl_jsAdd (fun r => jsMul r.complianceRate r.taxpayers)
    (fun r => qOf r.complianceRate * qOf r.taxpayers)
    (processRegions docs year []) 0
    (by
      intro r hr
      show jsMul r.complianceRate r.taxpayers =
        .num (qOf r.complianceRate * qOf r.taxpayers)
      rw [hcr r hr, htax r hr, jsMul_num]
      rfl)
  rw [zero_add] at h1 h2 h3
  have hS : 0 ≤ ((processRegions docs year []).map fun r => qOf r.taxpayers).sum := by
    apply List.sum_nonneg
    intro x hx
    rcases List.mem_map.mp hx with ⟨r, hr, hrx⟩
    exact hrx ▸ hpos r hr
  simp only [computeMetrics, specAggregate, h1, h2, h3, jsGtB_num]
  rcases hS.lt_or_eq with hlt | heq
  · have hne : ((processRegions docs year []).map fun r => qOf r.taxpayers).sum ≠ 0 :=
      ne_of_gt hlt
    simp [hlt, hne, jsDiv_num]
  · simp [← heq]

/-- Witness for C1: the spec's concrete scenario — taxpayers 100 at compliance
0.9 and taxpayers 300 at compliance 0.5 give weighted compliance 0.6. -/
theorem national_aggregate_witness :
    (computeMetrics (processRegions
        [⟨"A", [⟨2025, .num 100, .num 0, .num 0, .num 0, .num 0, .num 0, .num (mkRat 9 10)⟩]⟩,
         ⟨"B", [⟨2025, .num 300, .num 0, .num 0, .num 0, .num 0, .num 0, .num (mkRat 1 2)⟩]⟩]
        2025 [])).avgCompliance = .num ((3:ℚ)/5) := by
  have h := (national_aggregate_weighted
    [⟨"A", [⟨2025, .num 100, .num 0, .num 0, .num 0, .num 0, .num 0, .num (mkRat 9 10)⟩]⟩,
     ⟨"B", [⟨2025, .num 300, .num 0, .num 0, .num 0, .num 0, .num 0, .num (mkRat 1 2)⟩]⟩]
    2025 (by decide) (by decide)).2.2.2.2
  rw [h]
  have hrows : processRegions
      [⟨"A", [⟨2025, .num 100, .num 0, .num 0, .num 0, .num 0, .num 0, .num (mkRat 9 10)⟩]⟩,
       ⟨"B", [⟨2025, .num 300, .num 0, .num 0, .num 0, .num 0, .num 0, .num (mkRat 1 2)⟩]⟩]
      2025 [] =
      [⟨"A", .num 100, .num 0, .num 0, .num 0, .num 0, .num 0, .num (mkRat 9 10)⟩,
       ⟨"B", .num 300, .num 0, .num 0, .num 0, .num 0, .num 0, .num (mkRat 1 2)⟩] := by
    decide
  rw [hrows]
  norm_num [specAggregate, qOf, Rat.mkRat_eq_div]

/-- Claim C7: when validation fails, both `saveEdits` variants return a
validation failure carrying the space-joined messages and perform no write:
the whole remote store is unchanged and the only state change is the error
banner. -/
theorem commit_validation_failure_no_write :
    (∀ (st : RAState) (remote : List RegionDoc) (e : EditRec) (sel : MetricRow)
        (w : Bool),
      st.editForm = some e → st.selectedRegion = some sel →
      validateForm e ≠ [] →
      raSaveEdits st remote w =
        ({ st with saveError := some (String.intercalate " " (validateForm e)) },
          remote,
          .validationFailure (String.intercalate " " (validateForm e)))) ∧
    (∀ (st : DashState) (remote : List RegionDoc) (name : String) (fld : Field)
        (ed : MetricRow) (w : Bool),
      st.isEditing = some (name, fld) →
      lookupEdit st.editedData (name, st.selectedYear) = some ed →
      validateEdit ed ≠ [] →
      dashSaveEdits st remote w =
        ({ st with saveError := some (String.intercalate " " (validateEdit ed)) },
          remote,
          .validationFailure (String.intercalate " " (validateEdit ed)))) := by
  constructor
  · intro st remote e sel w h1 h2 h3
    simp [raSaveEdits, h1, h2, h3]
  · intro st remote name fld ed w h1 h2 h3
    simp [dashSaveEdits, h1, h2, h3]

/-- Witness for C7: a record with negative taxpayers is rejected by both
variants and the remote store is untouched. -/
theorem commit_validation_failure_witness :
    (raSaveEdits
        ⟨[], some (zeroRow "A"), true,
          some ⟨.num (-1), .num 0, .num 0, .num 0, .num 0, .num 0, .num 0⟩,
          none, 2025⟩
        [⟨"A", []⟩] true).2.1 = [⟨"A", []⟩] ∧
    (dashSaveEdits
        ⟨[], ⟨.num 0, .num 0, .num 0, .num 0⟩,
          [(("A", 2025), ⟨"A", .num (-1), .num 0, .num 0, .num 0, .num 0, .num 0, .num 0⟩)],
          some ("A", Field.taxpayers), none, 2025⟩
        [⟨"A", []⟩] true).2.1 = [⟨"A", []⟩] := by
  constructor
  · rw [commit_validation_failure_no_write.1
      ⟨[], some (zeroRow "A"), true,
        some ⟨.num (-1), .num 0, .num 0, .num 0, .num 0, .num 0, .num 0⟩,
        none, 2025⟩
      [⟨"A", []⟩]
      ⟨.num (-1), .num 0, .num 0, .num 0, .num 0, .num 0, .num 0⟩
      (zeroRow "A") true rfl rfl (by decide)]
  · rw [commit_validation_failure_no_write.2
      ⟨[], ⟨.num 0, .num 0, .num 0, .num 0⟩,
        [(("A", 2025), ⟨"A", .num (-1), .num 0, .num 0, .num 0, .num 0, .num 0, .num 0⟩)],
        some ("A", Field.taxpayers), none, 2025⟩
      [⟨"A", []⟩] "A" Field.taxpayers
      ⟨"A", .num (-1), .num 0, .num 0, .num 0, .num 0, .num 0, .num 0⟩
      true rfl (by decide) (by decide)]

/-- Claim C8: when the store write fails, both `saveEdits` variants return a
persist failure with the retryable banner message and leave everything —
remote store, in-memory snapshot, and pending edit — exactly as it was, apart
from the banner. -/
theorem commit_persist_failure_preserves_state :
    (∀ (st : RAState) (remote : List RegionDoc) (e : EditRec) (sel : MetricRow)
        (doc : RegionDoc),
      st.editForm = some e → st.selectedRegion = some sel →
      validateForm e = [] →
      remote.find? (fun d => d.region == sel.region) = some doc →
      raSaveEdits st remote false =
        ({ st with saveError := some persistMsg }, remote,
          .persistFailure persistMsg)) ∧
    (∀ (st : DashState) (remote : List RegionDoc) (name : String) (fld : Field)
        (ed : MetricRow) (doc : RegionDoc),
      st.isEditing = some (name, fld) →
      lookupEdit st.editedData (name, st.selectedYear) = some ed →
      validateEdit ed = [] →
      remote.find? (fun d => d.region == name) = some doc →
      dashSaveEdits st remote false =
        ({ st with saveError := some persistMsg }, remote,
          .persistFailure persistMsg)) := by
  constructor
  · intro st remote e sel doc h1 h2 h3 h4
    simp [raSaveEdits, h1, h2, h3, h4]
  · intro st remote name fld ed doc h1 h2 h3 h4
    simp [dashSaveEdits, h1, h2, h3, h4]

/-- Witness for C8: a failed write keeps the pending edit and snapshot of both
variants. -/
theorem commit_persist_failure_witness :
    (raSaveEdits
        ⟨[zeroRow "A"], some (zeroRow "A"), true,
          some ⟨.num 1, .num 0, .num 0, .num 0, .num 0, .num 0, .num 0⟩,
          none, 2025⟩
        [⟨"A", []⟩] false).1.editForm =
      some ⟨.num 1, .num 0, .num 0, .num 0, .num 0, .num 0, .num 0⟩ ∧
    (dashSaveEdits
        ⟨[zeroRow "A"], ⟨.num 0, .num 0, .num 0, .num 0⟩,
          [(("A", 2025), ⟨"A", .num 1, .num 0, .num 0, .num 0, .num 0, .num 0, .num 0⟩)],
          some ("A", Field.taxpayers), none, 2025⟩
        [⟨"A", []⟩] false).1.editedData =
      [(("A", 2025), ⟨"A", .num 1, .num 0, .num 0, .num 0, .num 0, .num 0, .num 0⟩)] := by
  constructor
  · rw [commit_persist_failure_preserves_state.1
      ⟨[zeroRow "A"], some (zeroRow "A"), true,
        some ⟨.num 1, .num 0, .num 0, .num 0, .num 0, .num 0, .num 0⟩,
        none, 2025⟩
      [⟨"A", []⟩]
      ⟨.num 1, .num 0, .num 0, .num 0, .num 0, .num 0, .num 0⟩
      (zeroRow "A") ⟨"A", []⟩ rfl rfl (by decide) (by decide)]
  · rw [commit_persist_failure_preserves_state.2
      ⟨[zeroRow "A"], ⟨.num 0, .num 0, .num 0, .num 0⟩,
        [(("A", 2025), ⟨"A", .num 1, .num 0, .num 0, .num 0, .num 0, .num 0, .num 0⟩)],
        some ("A", Field.taxpayers), none, 2025⟩
      [⟨"A", []⟩] "A" Field.taxpayers
      ⟨"A", .num 1, .num 0, .num 0, .num 0, .num 0, .num 0, .num 0⟩
      ⟨"A", []⟩ rfl (by decide) (by decide) (by decide)]

/-- Counterexample to C5 as stated: a successful Dashboard commit after which
the PendingEdit for that (region, year) is still present in `editedData` —
`Dashboard.saveEdits` clears `isEditing` but never removes the entry. -/
theorem pending_edit_survives_commit_cex :
    (dashSaveEdits
        ⟨[rowOfRecord "A" ⟨2025, .num 10, .num 1, .num 10, .num 0, .num 0, .num 0, .num 1⟩],
          ⟨.num 0, .num 0, .num 0, .num 0⟩,
          [(("A", 2025), ⟨"A", .num 20, .num 1, .num 20, .num 0, .num 0, .num 0, .num 1⟩)],
          some ("A", Field.taxpayers), none, 2025⟩
        [⟨"A", [⟨2025, .num 10, .num 1, .num 10, .num 0, .num 0, .num 0, .num 1⟩]⟩]
        true).2.2 = .success ∧
    lookupEdit
        (dashSaveEdits
          ⟨[rowOfRecord "A" ⟨2025, .num 10, .num 1, .num 10, .num 0, .num 0, .num 0, .num 1⟩],
            ⟨.num 0, .num 0, .num 0, .num 0⟩,
            [(("A", 2025), ⟨"A", .num 20, .num 1, .num 20, .num 0, .num 0, .num 0, .num 1⟩)],
            some ("A", Field.taxpayers), none, 2025⟩
          [⟨"A", [⟨2025, .num 10, .num 1, .num 10, .num 0, .num 0, .num 0, .num 1⟩]⟩]
          true).1.editedData ("A", 2025) ≠ none := by
  decide

/-- Claim C5 (amended): after a successful commit the in-memory snapshot row
for the region is replaced by the committed candidate and the editing marker
is cleared; the `RegionalAnalysis` variant also clears its pending edit form,
but the Dashboard variant leaves `editedData` — and hence the PendingEdit for
that (region, year) — unchanged. -/
theorem commit_success_snapshot_and_pending :
    (∀ (st : RAState) (remote : List RegionDoc) (e : EditRec) (sel : MetricRow)
        (doc : RegionDoc),
      st.editForm = some e → st.selectedRegion = some sel →
      validateForm e = [] →
      remote.find? (fun d => d.region == sel.region) = some doc →
      (raSaveEdits st remote true).2.2 = .success ∧
      (raSaveEdits st remote true).1.editForm = none ∧
      (raSaveEdits st remote true).1.editMode = false ∧
      (raSaveEdits st remote true).1.selectedRegion = some (editToRow e sel.region) ∧
      (raSaveEdits st remote true).1.regions =
        st.regions.map
          (fun r => if r.region == sel.region then editToRow e r.region else r)) ∧
    (∀ (st : DashState) (remote : List RegionDoc) (name : String) (fld : Field)
        (ed : MetricRow) (doc : RegionDoc),
      st.isEditing = some (name, fld) →
      lookupEdit st.editedData (name, st.selectedYear) = some ed →
      validateEdit ed = [] →
      remote.find? (fun d => d.region == name) = some doc →
      (dashSaveEdits st remote true).2.2 = .success ∧
      (dashSaveEdits st remote true).1.isEditing = none ∧
      (dashSaveEdits st remote true).1.editedData = st.editedData ∧
      (dashSaveEdits st remote true).1.regionalMetrics =
        st.regionalMetrics.map
          (fun r => if r.region == name then { ed with region := r.region } else r)) := by
  constructor
  · intro st remote e sel doc h1 h2 h3 h4
    refine ⟨?_, ?_, ?_, ?_, ?_⟩ <;> simp [raSaveEdits, h1, h2, h3, h4]
  · intro st remote name fld ed doc h1 h2 h3 h4
    refine ⟨?_, ?_, ?_, ?_⟩ <;> simp [dashSaveEdits, h1, h2, h3, h4]

/-- Witness for C5 (amended): concrete successful commits in both variants. -/
theorem commit_success_witness :
    (raSaveEdits
        ⟨[zeroRow "A"], some (zeroRow "A"), true,
          some ⟨.num 1, .num 0, .num 0, .num 0, .num 0, .num 0, .num 0⟩,
          none, 2025⟩
        [⟨"A", []⟩] true).1.editForm = none ∧
    (dashSaveEdits
        ⟨[zeroRow "A"], ⟨.num 0, .num 0, .num 0, .num 0⟩,
          [(("A", 2025), ⟨"A", .num 1, .num 0, .num 0, .num 0, .num 0, .num 0, .num 0⟩)],
          some ("A", Field.taxpayers), none, 2025⟩
        [⟨"A", []⟩] true).1.editedData =
      [(("A", 2025), ⟨"A", .num 1, .num 0, .num 0, .num 0, .num 0, .num 0, .num 0⟩)] := by
  constructor
  · exact (commit_success_snapshot_and_pending.1
      ⟨[zeroRow "A"], some (zeroRow "A"), true,
        some ⟨.num 1, .num 0, .num 0, .num 0, .num 0, .num 0, .num 0⟩,
        none, 2025⟩
      [⟨"A", []⟩]
      ⟨.num 1, .num 0, .num 0, .num 0, .num 0, .num 0, .num 0⟩
      (zeroRow "A") ⟨"A", []⟩ rfl rfl (by decide) (by decide)).2.1
  · rw [(commit_success_snapshot_and_pending.2
      ⟨[zeroRow "A"], ⟨.num 0, .num 0, .num 0, .num 0⟩,
        [(("A", 2025), ⟨"A", .num 1, .num 0, .num 0, .num 0, .num 0, .num 0, .num 0⟩)],
        some ("A", Field.taxpayers), none, 2025⟩
      [⟨"A", []⟩] "A" Field.taxpayers
      ⟨"A", .num 1, .num 0, .num 0, .num 0, .num 0, .num 0, .num 0⟩
      ⟨"A", []⟩ rfl (by decide) (by decide) (by decide)).2.2.1]

/-- Claim C9: the view filter returns exactly the regions whose lowercased
name contains the lowercased query as a substring AND (for a non-`all` tab)
whose compliance rate lies in the tab's range (high ≥ 0.8,
0.5 ≤ medium < 0.8, low < 0.5); it is a `List.filter`, so the input order is
preserved, and with the empty query and the `all` tab it returns the list
unchanged. -/
theorem view_filter_spec :
    (∀ (regions : List MetricRow) (tab : Tab) (q : String),
      filterRegions regions tab q =
        regions.filter fun r =>
          strIncludes (lowerStr r.region) (lowerStr q) && tabPred tab r) ∧
    (∀ regions : List MetricRow, filterRegions regions .all "" = regions) ∧
    (∀ s p : String, strIncludes s p = true ↔ p.data <:+: s.data) ∧
    (∀ (r : MetricRow) (x : ℚ), r.complianceRate = .num x →
      (tabPred .high r = decide ((8 : ℚ)/10 ≤ x) ∧
       tabPred .medium r =
         (decide ((5 : ℚ)/10 ≤ x) && decide (x < (8 : ℚ)/10)) ∧
       tabPred .low r = decide (x < (5 : ℚ)/10))) := by
  have ha : ∀ (regions : List MetricRow) (tab : Tab) (q : String),
      filterRegions regions tab q =
        regions.filter fun r =>
          strIncludes (lowerStr r.region) (lowerStr q) && tabPred tab r := by
    intro regions tab q
    unfold filterRegions
    rw [List.filter_filter]
  refine ⟨ha, ?_, ?_, ?_⟩
  · intro regions
    rw [ha]
    have hpt : ∀ r ∈ regions,
        (strIncludes (lowerStr r.region) (lowerStr "") && tabPred .all r) =
          (fun _ => true) r := by
      intro r _
      simp [tabPred, strIncludes, lowerStr, containsSeq_nil]
    rw [List.filter_congr hpt, List.filter_true]
  · intro s p
    exact containsSeq_iff p.data s.data
  · intro r x h
    refine ⟨?_, ?_, ?_⟩ <;>
      simp only [tabPred, h, jsGeB_num, jsLtB_num, decide_eq_decide,
        Bool.and_eq_true] <;>
      norm_num [Rat.mkRat_eq_div]

/-- Witness for C9: the empty query over the `all` tab returns a concrete list
unchanged, and a region at compliance 0.9 passes the `high` tab. -/
theorem view_filter_witness :
    filterRegions [zeroRow "Ashanti"] .all "" = [zeroRow "Ashanti"] ∧
    tabPred .high
      ⟨"A", .num 0, .num 0, .num 0, .num 0, .num 0, .num 0, .num (mkRat 9 10)⟩ =
      true := by
  constructor
  · exact view_filter_spec.2.1 [zeroRow "Ashanti"]
  · rw [(view_filter_spec.2.2.2
      ⟨"A", .num 0, .num 0, .num 0, .num 0, .num 0, .num 0, .num (mkRat 9 10)⟩
      (mkRat 9 10) rfl).1]
    rw [decide_eq_true_eq]
    norm_num [Rat.mkRat_eq_div]

/-- Witness for C3: a concrete two-record series (unique years) and a concrete
commit through `raSaveEdits`. -/
theorem commit_merge_witness :
    mergeYearlyData
        [⟨2024, .num 1, .num 1, .num 1, .num 0, .num 0, .num 0, .num (mkRat 1 2)⟩]
        ⟨.num 5, .num 2, .num 10, .num 1, .num 2, .num 2, .num (mkRat 9 10)⟩ 2025 =
      replaceOrAppend
        [⟨2024, .num 1, .num 1, .num 1, .num 0, .num 0, .num 0, .num (mkRat 1 2)⟩]
        (editToRecord ⟨.num 5, .num 2, .num 10, .num 1, .num 2, .num 2, .num (mkRat 9 10)⟩ 2025)
        2025 ∧
    (raSaveEdits
        ⟨[], some (zeroRow "A"), true,
          some ⟨.num 5, .num 2, .num 10, .num 1, .num 2, .num 2, .num (mkRat 9 10)⟩,
          none, 2025⟩
        [⟨"A", [⟨2024, .num 1, .num 1, .num 1, .num 0, .num 0, .num 0, .num (mkRat 1 2)⟩]⟩]
        true).2.2 = .success := by
  constructor
  · exact (commit_merge_replaces_or_appends.1
      [⟨2024, .num 1, .num 1, .num 1, .num 0, .num 0, .num 0, .num (mkRat 1 2)⟩]
      ⟨.num 5, .num 2, .num 10, .num 1, .num 2, .num 2, .num (mkRat 9 10)⟩ 2025
      (by decide)).1
  · exact (commit_merge_replaces_or_appends.2
      ⟨[], some (zeroRow "A"), true,
        some ⟨.num 5, .num 2, .num 10, .num 1, .num 2, .num 2, .num (mkRat 9 10)⟩,
        none, 2025⟩
      [⟨"A", [⟨2024, .num 1, .num 1, .num 1, .num 0, .num 0, .num 0, .num (mkRat 1 2)⟩]⟩]
      ⟨.num 5, .num 2, .num 10, .num 1, .num 2, .num 2, .num (mkRat 9 10)⟩
      (zeroRow "A")
      ⟨"A", [⟨2024, .num 1, .num 1, .num 1, .num 0, .num 0, .num 0, .num (mkRat 1 2)⟩]⟩
      rfl rfl (by decide) (by decide)).1

/-- Counterexample to C4 as stated: the empty raw input is a float-parse
failure, yet `RegionalAnalysis.handleEditChange` stores the empty string, not
the default 0. -/
theorem stage_empty_string_cex :
    parseFloat "" = none ∧ stageRA "" = .str "" ∧ stageRA "" ≠ .num 0 := by
  decide

/-- Claim C4 (amended): staging parses numeric fields by float parse
defaulting to 0 on parse failure except the empty raw input, which the
RegionalAnalysis form stores as the empty string; the Dashboard parses
integer-like fields by stripping thousand separators (default 0), and stores
complianceRate as the 0–1 fraction raw/100 with no default, so an unparseable
compliance input stores NaN; staging "85" for complianceRate stores 0.85. -/
theorem stage_parsing_amended :
    (stageRA "" = .str "") ∧
    (∀ v : String, v ≠ "" → stageRA v = .num ((parseFloat v).getD 0)) ∧
    (∀ (v : String) (x : ℚ), parseFloat v = some x →
      stageDash .complianceRate v = .num (x / 100)) ∧
    (∀ v : String, parseFloat v = none → stageDash .complianceRate v = .nan) ∧
    (∀ (fld : Field) (v : String) (n : ℤ), fld ≠ .complianceRate →
      parseInt10 (stripCommas v) = some n → stageDash fld v = .num (n : ℚ)) ∧
    (stageDash .complianceRate "85" = .num ((85 : ℚ)/100)) ∧
    (stageDash .taxpayers "1,234" = .num 1234) := by
  refine ⟨by decide, ?_, ?_, ?_, ?_, ?_, ?_⟩
  · intro v hv
    simp [stageRA, hv]
  · intro v x h
    simp [stageDash, h, qDiv_eq]
  · intro v h
    simp [stageDash, h]
  · intro fld v n hfld h
    simp [stageDash, hfld, h]
  · have h85 : parseFloat "85" = some 85 := by decide
    simp [stageDash, h85, qDiv_eq]
  · have h1234 : parseInt10 (stripCommas "1,234") = some 1234 := by decide
    simp [stageDash, h1234]

/-- Witness for C4 (amended): concrete parses — "2.5" stores 2.5, "abc"
defaults to 0 in the RegionalAnalysis form and stores NaN for the Dashboard
compliance field, "1,234" strips the separator. -/
theorem stage_parsing_witness :
    stageRA "2.5" = .num ((5 : ℚ)/2) ∧
    stageRA "abc" = .num 0 ∧
    stageDash .complianceRate "abc" = .nan ∧
    stageDash .salaryTaxpayers "1,234" = .num 1234 := by
  refine ⟨?_, ?_, ?_, ?_⟩
  · rw [stage_parsing_amended.2.1 "2.5" (by decide)]
    have : parseFloat "2.5" = some (mkRat 5 2) := by decide
    rw [this]
    norm_num [Rat.mkRat_eq_div]
  · rw [stage_parsing_amended.2.1 "abc" (by decide)]
    have : parseFloat "abc" = none := by decide
    rw [this]
    rfl
  · exact stage_parsing_amended.2.2.2.1 "abc" (by decide)
  · rw [stage_parsing_amended.2.2.2.2.1 Field.salaryTaxpayers "1,234" 1234
      (by decide) (by decide)]
    norm_num

/-- Claim C6: `validateForm` / `validateEdit` evaluate every constraint
independently and return the message of each violated one (membership of each
message is equivalent to its constraint, for all-numeric records); a record
with `salaryTaxpayers + eVatTaxpayers + otherTaxpayers > taxpayers` is
rejected, and the exact-equality boundary produces no sum violation. -/
theorem validate_reports_all_violations (t a tt s ev o c : ℚ) :
    (msgTaxNeg ∈ validateForm (numEdit t a tt s ev o c) ↔ t < 0) ∧
    (msgAvgNeg ∈ validateForm (numEdit t a tt s ev o c) ↔ a < 0) ∧
    (msgTotNeg ∈ validateForm (numEdit t a tt s ev o c) ↔ tt < 0) ∧
    (msgSalNeg ∈ validateForm (numEdit t a tt s ev o c) ↔ s < 0) ∧
    (msgEvatNeg ∈ validateForm (numEdit t a tt s ev o c) ↔ ev < 0) ∧
    (msgOtherNeg ∈ validateForm (numEdit t a tt s ev o c) ↔ o < 0) ∧
    (msgCompliance ∈ validateForm (numEdit t a tt s ev o c) ↔ (c < 0 ∨ 1 < c)) ∧
    (msgSum ∈ validateForm (numEdit t a tt s ev o c) ↔ t < s + ev + o) ∧
    (t < s + ev + o → validateForm (numEdit t a tt s ev o c) ≠ []) ∧
    (s + ev + o = t → msgSum ∉ validateForm (numEdit t a tt s ev o c)) ∧
    (msgSum ∈ validateEdit (numRowD t a tt s ev o c) ↔ t < s + ev + o) ∧
    (s + ev + o = t → msgSum ∉ validateEdit (numRowD t a tt s ev o c)) := by
  have hmem : ∀ m : String, m ∈ validateForm (numEdit t a tt s ev o c) ↔
      ((t < 0 ∧ m = msgTaxNeg) ∨ (a < 0 ∧ m = msgAvgNeg) ∨
       (tt < 0 ∧ m = msgTotNeg) ∨ (s < 0 ∧ m = msgSalNeg) ∨
       (ev < 0 ∧ m = msgEvatNeg) ∨ (o < 0 ∧ m = msgOtherNeg) ∨
       ((c < 0 ∨ 1 < c) ∧ m = msgCompliance) ∨
       (t < s + ev + o ∧ m = msgSum)) := by
    intro m
    simp only [validateForm, numEdit, jsAdd_num, jsLtB_num, jsGtB_num,
      Bool.or_eq_true, decide_eq_true_eq]
    simp [List.mem_append, mem_guard_nil, or_assoc]
  have hmem2 : ∀ m : String, m ∈ validateEdit (numRowD t a tt s ev o c) ↔
      ((t < 0 ∧ m = msgTaxNeg) ∨ (a < 0 ∧ m = msgAvgNeg) ∨
       (tt < 0 ∧ m = msgTotNeg) ∨ (s < 0 ∧ m = msgSalNeg) ∨
       (ev < 0 ∧ m = msgEvatNeg) ∨ (o < 0 ∧ m = msgOtherNeg) ∨
       ((c < 0 ∨ 1 < c) ∧ m = msgComplianceDash) ∨
       (t < s + ev + o ∧ m = msgSum)) := by
    intro m
    simp only [validateEdit, numRowD, jsAdd_num, jsLtB_num, jsGtB_num,
      Bool.or_eq_true, decide_eq_true_eq]
    simp [List.mem_append, mem_guard_nil, or_assoc]
  refine ⟨?_, ?_, ?_, ?_, ?_, ?_, ?_, ?_, ?_, ?_, ?_, ?_⟩
  · rw [hmem]
    simp [msgTaxNeg, msgAvgNeg, msgTotNeg, msgSalNeg, msgEvatNeg, msgOtherNeg,
      msgCompliance, msgSum]
  · rw [hmem]
    simp [msgTaxNeg, msgAvgNeg, msgTotNeg, msgSalNeg, msgEvatNeg, msgOtherNeg,
      msgCompliance, msgSum]
  · rw [hmem]
    simp [msgTaxNeg, msgAvgNeg, msgTotNeg, msgSalNeg, msgEvatNeg, msgOtherNeg,
      msgCompliance, msgSum]
  · rw [hmem]
    simp [msgTaxNeg, msgAvgNeg, msgTotNeg, msgSalNeg, msgEvatNeg, msgOtherNeg,
      msgCompliance, msgSum]
  · rw [hmem]
    simp [msgTaxNeg, msgAvgNeg, msgTotNeg, msgSalNeg, msgEvatNeg, msgOtherNeg,
      msgCompliance, msgSum]
  · rw [hmem]
    simp [msgTaxNeg, msgAvgNeg, msgTotNeg, msgSalNeg, msgEvatNeg, msgOtherNeg,
      msgCompliance, msgSum]
  · rw [hmem]
    simp [msgTaxNeg, msgAvgNeg, msgTotNeg, msgSalNeg, msgEvatNeg, msgOtherNeg,
      msgCompliance, msgSum]
  · rw [hmem]
    simp [msgTaxNeg, msgAvgNeg, msgTotNeg, msgSalNeg, msgEvatNeg, msgOtherNeg,
      msgCompliance, msgSum]
  · intro h
    have hm : msgSum ∈ validateForm (numEdit t a tt s ev o c) := by
      rw [hmem]
      simp [msgTaxNeg, msgAvgNeg, msgTotNeg, msgSalNeg, msgEvatNeg, msgOtherNeg,
        msgCompliance, msgSum]
      exact h
    exact List.ne_nil_of_mem hm
  · intro hb
    rw [hmem]
    simp [msgTaxNeg, msgAvgNeg, msgTotNeg, msgSalNeg, msgEvatNeg, msgOtherNeg,
      msgCompliance, msgSum]
    rw [hb]
  · rw [hmem2]
    simp [msgTaxNeg, msgAvgNeg, msgTotNeg, msgSalNeg, msgEvatNeg, msgOtherNeg,
      msgComplianceDash, msgSum]
  · intro hb
    rw [hmem2]
    simp [msgTaxNeg, msgAvgNeg, msgTotNeg, msgSalNeg, msgEvatNeg, msgOtherNeg,
      msgComplianceDash, msgSum]
    rw [hb]

/-- Claim C10: some raw inputs stage a non-numeric field value — the empty
string in the RegionalAnalysis form, a NaN compliance rate in the Dashboard —
and `validate` returns no violation for such records, so the commit succeeds
and persists the non-numeric value to the store. -/
theorem nonnumeric_values_pass_validation :
    stageRA "" = .str "" ∧
    validateForm edCleared = [] ∧
    (raSaveEdits
        ⟨[rowOfRecord "A" yrBase], some (rowOfRecord "A" yrBase), true,
          some edCleared, none, 2025⟩
        [⟨"A", [yrBase]⟩] true).2.2 = .success ∧
    (raSaveEdits
        ⟨[rowOfRecord "A" yrBase], some (rowOfRecord "A" yrBase), true,
          some edCleared, none, 2025⟩
        [⟨"A", [yrBase]⟩] true).2.1 =
      [⟨"A", [⟨2025, .str "", .num 1, .num 10, .num 0, .num 0, .num 0,
        .num (mkRat 1 2)⟩]⟩] ∧
    stageDash .complianceRate "abc" = .nan ∧
    validateEdit rowNaNCompliance = [] ∧
    (dashSaveEdits
        ⟨[rowOfRecord "A" yrBase], ⟨.num 0, .num 0, .num 0, .num 0⟩,
          [(("A", 2025), rowNaNCompliance)], some ("A", Field.complianceRate),
          none, 2025⟩
        [⟨"A", [yrBase]⟩] true).2.2 = .success ∧
    (dashSaveEdits
        ⟨[rowOfRecord "A" yrBase], ⟨.num 0, .num 0, .num 0, .num 0⟩,
          [(("A", 2025), rowNaNCompliance)], some ("A", Field.complianceRate),
          none, 2025⟩
        [⟨"A", [yrBase]⟩] true).2.1 =
      [⟨"A", [⟨2025, .num 10, .num 1, .num 10, .num 0, .num 0, .num 0,
        .nan⟩]⟩] := by
  decide

/-- Witness for C6: the exact boundary 4+3+3 = 10 is accepted (no sum
message), and a record with a violated constraint is rejected. -/
theorem validate_boundary_witness :
    msgSum ∉ validateForm (numEdit 10 1 5 4 3 3 1) ∧
    validateForm (numEdit (-1) 1 5 0 0 0 1) ≠ [] := by
  constructor
  · exact (validate_reports_all_violations 10 1 5 4 3 3 1).2.2.2.2.2.2.2.2.2.1
      (by norm_num)
  · exact (validate_reports_all_violations (-1) 1 5 0 0 0 1).2.2.2.2.2.2.2.2.1
      (by norm_num)

end GRA
